import Mathlib

/-!
Verification of the nozzle adaptive flow-control library.

The definitions below are a shallow embedding of the final Go implementation
(the generic `Nozzle[T]` with `closed`, `Close`, `StateSnapshot`,
`maxDecreaseBy` and `safeMultiply`).  Go `int64` fields are modelled as `Int`
(`flowRate`, `decreaseBy`, configuration percentages) or as `Nat` for the four
per-interval counters, which are only ever incremented from zero and reset
(their Go values can never become negative or overflow in any real trace).
Time, the mutex and the channels are not modelled; the tick step of the
transition relation stands for "the ticker fired and at least one interval has
elapsed", and it is only available while the nozzle has not been shut down,
which models the `done` channel stopping the ticker goroutine.
-/

/-! ### IEEE binary64 model for the percentage expressions

The Go code computes its two percentages as
`int64((float64(a) / float64(b)) * 100)`.  The helpers below model the IEEE
binary64 (round-to-nearest, ties-to-even) evaluation of that expression for
`0 ≤ a ≤ b < 2^53`, where the `float64` conversions of `a` and `b` are exact:
the division is a correctly rounded `a/b`, the multiplication by `100`
(exact in binary64) is correctly rounded again, and the final conversion to
`int64` truncates toward zero.  A float is represented as a pair
`(m, e) : Nat × Int` whose value is `m * 2^(e-52)` with `2^52 ≤ m ≤ 2^53`
for nonzero results (all values involved are far inside the normal range). -/

/-- Round `p / q` (with `q > 0`) to the nearest integer, ties to even. -/
def roundNearestEven (p q : Nat) : Nat :=
  let t := p / q
  let r := p % q
  if 2 * r < q then t
  else if q < 2 * r then t + 1
  else if t % 2 = 0 then t else t + 1

/-- Fuel-driven base-2 logarithm on `Nat`, structurally recursive so that it
reduces inside the kernel.  `log2fuel fuel n = ⌊log₂ n⌋` whenever `n < 2^fuel`
and `n ≥ 1`. -/
def log2fuel : Nat → Nat → Nat
  | 0, _ => 0
  | fuel + 1, n => if n < 2 then 0 else log2fuel fuel (n / 2) + 1

/-- `⌊log₂ n⌋` for the sizes appearing here (anything below `2^400`). -/
def nlog2 (n : Nat) : Nat := log2fuel 400 n

/-- `⌊log₂ (n/d)⌋` for positive `n d`. -/
def ratLog2 (n d : Nat) : Int :=
  let e0 : Int := (nlog2 n : Int) - (nlog2 d : Int)
  if d * 2 ^ e0.toNat ≤ n * 2 ^ (-e0).toNat then e0 else e0 - 1

/-- Round the nonnegative rational `n / d` (with `d > 0`) to the nearest
binary64 value, returned as a mantissa/exponent pair of value
`m * 2^(e-52)`. -/
def floatOfRat (n d : Nat) : Nat × Int :=
  if n = 0 then (0, 0)
  else
    let e := ratLog2 n d
    let shift : Int := 52 - e
    (roundNearestEven (n * 2 ^ shift.toNat) (d * 2 ^ (-shift).toNat), e)

/-- Correctly rounded binary64 multiplication of a float pair by `100`. -/
def floatMul100 (me : Nat × Int) : Nat × Int :=
  floatOfRat (100 * me.1 * 2 ^ (me.2 - 52).toNat) (2 ^ (52 - me.2).toNat)

/-- Truncation of a nonnegative float pair toward zero, as in Go's
`int64(x)` conversion. -/
def floatTrunc (me : Nat × Int) : Nat :=
  me.1 * 2 ^ (me.2 - 52).toNat / 2 ^ (52 - me.2).toNat

/-- The binary64 evaluation of Go's `int64((float64(a) / float64(b)) * 100)`
for `0 ≤ a ≤ b < 2^53`, `b > 0`. -/
def floatPercent100 (a b : Nat) : Nat :=
  floatTrunc (floatMul100 (floatOfRat a b))

/-! ### Data model

Translated from the final Go source: `State`, `Options`, `StateSnapshot`,
`Nozzle`, the constant `maxDecreaseBy` and the helpers `clamp` and
`safeMultiply`. -/

/-- `State` — the direction the nozzle is moving (Go `type State string` with
the two constants `Opening` and `Closing`). -/
inductive State where
  | Opening : State
  | Closing : State
deriving DecidableEq, Repr

/-- Go `Options[T]`: `Interval` is a `time.Duration`, i.e. an `int64` count of
nanoseconds, modelled as `Int`.  The optional `OnStateChange` callback is
modelled by whether it is non-nil (`hasOnStateChange`); the callback body
itself lives outside the state so the state keeps decidable equality. -/
structure Options where
  Interval : Int
  AllowedFailurePercent : Int
  hasOnStateChange : Bool
deriving DecidableEq, Repr

/-- Go `Nozzle[T]` — the mutable fields relevant to the control logic.
`start`, the mutex, the channels and the `sync.Once` are not part of the
model; `closed` plus the availability of the tick step stand in for the
lifecycle machinery. -/
structure Nozzle where
  Options : Options
  decreaseBy : Int
  flowRate : Int
  successes : Nat
  failures : Nat
  allowed : Nat
  blocked : Nat
  state : State
  closed : Bool
deriving DecidableEq, Repr

/-- Go `StateSnapshot` — the immutable record handed to `OnStateChange`. -/
structure StateSnapshot where
  FlowRate : Int
  State : State
  FailureRate : Int
  SuccessRate : Int
  Allowed : Nat
  Blocked : Nat
deriving DecidableEq, Repr

/-- Go constant `maxDecreaseBy int64 = 1000000000`. -/
def maxDecreaseBy : Int := 1000000000

/-- `math.MaxInt64`. -/
def maxInt64 : Int := 9223372036854775807

/-- `math.MinInt64`. -/
def minInt64 : Int := -9223372036854775808

/-- Go `clamp`: constrain the flow rate to `[0, 100]`. -/
def clamp (i : Int) : Int :=
  if i < 0 then 0
  else if 100 < i then 100
  else i

/-- Go `safeMultiply`: multiplication with overflow detection, saturating at
`math.MaxInt64`/`math.MinInt64`.  Go's `/` on `int64` truncates toward zero,
hence `Int.tdiv`. -/
def safeMultiply (a b : Int) : Int :=
  if a = 0 ∨ b = 0 then 0
  else if 0 < a ∧ 0 < b ∧ Int.tdiv maxInt64 b < a then maxInt64
  else if a < 0 ∧ b < 0 ∧ a < Int.tdiv maxInt64 b then maxInt64
  else if 0 < a ∧ b < 0 ∧ b < Int.tdiv minInt64 a then minInt64
  else if a < 0 ∧ 0 < b ∧ a < Int.tdiv minInt64 b then minInt64
  else a * b

/-- Go `New`: the nozzle starts fully open, `state = Opening`, all counters
and `decreaseBy` zero.  (The final Go source in the repository performs no
option validation; the validated constructor expected by the test-suite is
modelled separately below.) -/
def New (options : Options) : Nozzle where
  Options := options
  decreaseBy := 0
  flowRate := 100
  successes := 0
  failures := 0
  allowed := 0
  blocked := 0
  state := State.Opening
  closed := false

/-! ### Per-call operations -/

/-- Go `Nozzle.success`. -/
def Nozzle.success (n : Nozzle) : Nozzle := { n with successes := n.successes + 1 }

/-- Go `Nozzle.failure`. -/
def Nozzle.failure (n : Nozzle) : Nozzle := { n with failures := n.failures + 1 }

/-- Go `Nozzle.DoBool`, with the caller's callback abstracted by its boolean
outcome `ok`.  Returns the new state, the boolean the caller receives, and
whether the callback was invoked. -/
def Nozzle.DoBool (n : Nozzle) (ok : Bool) : Nozzle × Bool × Bool :=
  if n.closed then (n, false, false)
  else
    let allowRate : Int :=
      if n.allowed ≠ 0 then (floatPercent100 n.allowed (n.allowed + n.blocked) : Int) else 0
    let allow : Bool :=
      if n.flowRate = 100 then true
      else if 0 < n.flowRate then decide (allowRate < n.flowRate)
      else false
    if allow then
      let n1 := { n with allowed := n.allowed + 1 }
      (if ok then n1.success else n1.failure, ok, true)
    else
      ({ n with blocked := n.blocked + 1 }, false, false)

/-- The errors a `DoError` call can surface: the two sentinels plus "the
caller's own callback returned an error". -/
inductive GoErr where
  | errClosed : GoErr
  | errBlocked : GoErr
  | callerError : GoErr
deriving DecidableEq, Repr

/-- Go `Nozzle.DoError`, with the callback abstracted by whether it returns
an error.  Returns the new state, the error the caller receives (`none` for
success), and whether the callback was invoked. -/
def Nozzle.DoError (n : Nozzle) (err : Bool) : Nozzle × Option GoErr × Bool :=
  if n.closed then (n, some GoErr.errClosed, false)
  else
    let allowRate : Int :=
      if n.allowed ≠ 0 then (floatPercent100 n.allowed (n.allowed + n.blocked) : Int) else 0
    let allow : Bool :=
      if n.flowRate = 100 then true
      else if 0 < n.flowRate then decide (allowRate < n.flowRate)
      else false
    if allow then
      let n1 := { n with allowed := n.allowed + 1 }
      (if err then n1.failure else n1.success, if err then some GoErr.callerError else none, true)
    else
      ({ n with blocked := n.blocked + 1 }, some GoErr.errBlocked, false)

/-! ### Rates and control loop -/

/-- Go `Nozzle.failureRate` (unexported): `0` when no outcomes exist, else the
binary64 evaluation of `(failures / (failures + successes)) * 100`. -/
def Nozzle.failureRate (n : Nozzle) : Int :=
  if n.failures = 0 ∧ n.successes = 0 then 0
  else (floatPercent100 n.failures (n.failures + n.successes) : Int)

/-- Go `Nozzle.successRate` (unexported). -/
def Nozzle.successRate (n : Nozzle) : Int :=
  if n.flowRate = 0 then 0
  else if n.failures = 0 ∧ n.successes = 0 then 100
  else 100 - n.failureRate

/-- Go `Nozzle.FlowRate`. -/
def Nozzle.FlowRate (n : Nozzle) : Int := n.flowRate

/-- Go `Nozzle.SuccessRate` (public). -/
def Nozzle.SuccessRate (n : Nozzle) : Int :=
  if n.flowRate = 0 then 0
  else if n.failures = 0 ∧ n.successes = 0 then 100
  else 100 - n.failureRate

/-- Go `Nozzle.FailureRate` (public). -/
def Nozzle.FailureRate (n : Nozzle) : Int :=
  if n.flowRate = 0 then 0
  else if n.failures = 0 ∧ n.successes = 0 then 0
  else n.failureRate

/-- Go `Nozzle.close` (unexported): force a closing step of at least one unit,
clamp the flow rate, and double the step, capping it at `-maxDecreaseBy`.
Note: unlike every earlier variant in the repository, this final version has
no `if n.flowRate == 0 { return }` guard. -/
def Nozzle.close (n : Nozzle) : Nozzle :=
  let mult := if -1 < n.decreaseBy then -1 else n.decreaseBy
  let nextDecrease := safeMultiply mult 2
  let nextDecrease := if nextDecrease < -maxDecreaseBy then -maxDecreaseBy else nextDecrease
  { n with flowRate := clamp (n.flowRate + mult), decreaseBy := nextDecrease }

/-- Go `Nozzle.open` (unexported; `open` is a Lean keyword): no-op at flow
rate `100`, otherwise an opening step of at least one unit with the step
doubled and capped at `maxDecreaseBy`. -/
def Nozzle.doOpen (n : Nozzle) : Nozzle :=
  if n.flowRate = 100 then n
  else
    let mult := if n.decreaseBy < 1 then 1 else n.decreaseBy
    let nextDecrease := safeMultiply mult 2
    let nextDecrease := if maxDecreaseBy < nextDecrease then maxDecreaseBy else nextDecrease
    { n with flowRate := clamp (n.flowRate + mult), decreaseBy := nextDecrease }

/-- Go `Nozzle.reset`: clear the per-interval counters (the `start` timestamp
is outside the model). -/
def Nozzle.reset (n : Nozzle) : Nozzle :=
  { n with successes := 0, failures := 0, allowed := 0, blocked := 0 }

/-- Go `Nozzle.calculate`, assuming at least one interval has elapsed (the
`time.Since` guard is the tick relation's responsibility).  Returns the new
state together with the `StateSnapshot` handed to `OnStateChange`, when the
callback is configured and either the flow rate or the state changed. -/
def Nozzle.calculate (n : Nozzle) : Nozzle × Option StateSnapshot :=
  let n2 :=
    if n.Options.AllowedFailurePercent < n.failureRate then
      { n.close with state := State.Closing }
    else
      { n.doOpen with state := State.Opening }
  let changed := n2.flowRate ≠ n.flowRate ∨ n2.state ≠ n.state
  let snap : Option StateSnapshot :=
    if changed ∧ n.Options.hasOnStateChange then
      some { FlowRate := n2.flowRate, State := n2.state, FailureRate := n2.failureRate,
             SuccessRate := n2.successRate, Allowed := n2.allowed, Blocked := n2.blocked }
    else none
  (n2.reset, snap)

/-- Go `Nozzle.Close`: idempotently mark the nozzle closed (the `sync.Once`,
`done` channel and ticker shutdown are modelled by `closed` plus the tick
step's `closed = false` requirement).  Always returns `nil`, modelled as
`none`. -/
def Nozzle.Close (n : Nozzle) : Nozzle × Option GoErr :=
  ({ n with closed := true }, none)

/-! ### Spec-side admission rule

Two rule-shaped definitions for the admission gate, to compare against the
code-shaped `DoBool`/`DoError` above: `admitDecision` uses the ratio the code
actually computes (binary64), `admitDecisionClaim` uses the exact integer
floor that the specification's sentence describes. -/

/-- The three admission outcomes of the spec's admission gate. -/
inductive Decision where
  | admitted : Decision
  | denyThrottled : Decision
  | denyClosed : Decision
deriving DecidableEq, Repr

/-- The admit ratio as the code computes it (binary64 evaluation). -/
def admitRatio (allowed blocked : Nat) : Int :=
  if 0 < allowed then (floatPercent100 allowed (allowed + blocked) : Int) else 0

/-- The admit ratio as the specification's sentence states it:
`floor(allowed * 100 / (allowed + blocked))` over exact integers. -/
def admitRatioClaim (allowed blocked : Nat) : Int :=
  if 0 < allowed then ((100 * allowed) / (allowed + blocked) : Nat) else 0

/-- The spec's admission decision rule, with the binary64 ratio. -/
def admitDecision (n : Nozzle) : Decision :=
  if n.closed then Decision.denyClosed
  else if n.flowRate = 100 then Decision.admitted
  else if n.flowRate = 0 then Decision.denyThrottled
  else if admitRatio n.allowed n.blocked < n.flowRate then Decision.admitted
  else Decision.denyThrottled

/-- The admission decision rule exactly as the claim words it, with the
exact-integer floor ratio. -/
def admitDecisionClaim (n : Nozzle) : Decision :=
  if n.closed then Decision.denyClosed
  else if n.flowRate = 100 then Decision.admitted
  else if n.flowRate = 0 then Decision.denyThrottled
  else if admitRatioClaim n.allowed n.blocked < n.flowRate then Decision.admitted
  else Decision.denyThrottled

/-! ### Missing-from-source parts, modelled from the spec -/

/-- The two construction-time sentinel errors expected by
`nozzle_validation_test.go`. -/
inductive NewError where
  | ErrInvalidInterval : NewError
  | ErrInvalidFailurePercent : NewError
deriving DecidableEq, Repr

/-- Modelled from the spec: the validating constructor.  The version of Go
`New` that returns `(nozzle, error)` is not in the source tree — only
`nozzle_validation_test.go` exercises it — so this follows §4.6 of the spec:
validate `interval > 0` (else *InvalidInterval*), then
`0 ≤ ceilingPercent ≤ 100` (else *InvalidCeiling*, named
`ErrInvalidFailurePercent` by the tests); on failure no nozzle is produced
and no background activity starts. -/
def NewValidated (options : Options) : Except NewError Nozzle :=
  if options.Interval ≤ 0 then Except.error NewError.ErrInvalidInterval
  else if options.AllowedFailurePercent < 0 ∨ 100 < options.AllowedFailurePercent then
    Except.error NewError.ErrInvalidFailurePercent
  else Except.ok (New options)

/-- Modelled from the spec: the state-change notifier's fault isolation.  The
Go `calculate` that wraps the `OnStateChange` call in `defer`/`recover` is
not in the source tree — only `TestCallbackPanicRecovery` exercises it — so
per §4.5 the observer's panic (`Except.error`) is caught and discarded. -/
def notifyRecover (obs : StateSnapshot → Except String Unit) (s : StateSnapshot) : Unit :=
  match obs s with
  | Except.ok _ => ()
  | Except.error _ => ()

/-- Modelled from the spec: one tick of the control loop with a live observer
`obs` (which may panic, modelled as `Except.error`); the notifier catches the
panic, so the tick still completes with the post-adjustment state and reset
counters. -/
def Nozzle.calculateObs (n : Nozzle) (obs : StateSnapshot → Except String Unit) : Nozzle :=
  let r := n.calculate
  match r.2 with
  | none => r.1
  | some s =>
    match notifyRecover obs s with
    | () => r.1

/-! ### Transition relation -/

/-- One externally driven step of a nozzle, labelled with the snapshot that
the step delivers to the observer (`none` for steps that never notify).  The
tick step requires `closed = false`: `Close` closes the `done` channel and
stops the ticker, so the control loop no longer runs. -/
inductive Step : Nozzle → Option StateSnapshot → Nozzle → Prop where
  | doBool (n : Nozzle) (ok : Bool) : Step n none (n.DoBool ok).1
  | doError (n : Nozzle) (err : Bool) : Step n none (n.DoError err).1
  | tick (n : Nozzle) (h : n.closed = false) : Step n n.calculate.2 n.calculate.1
  | closeStep (n : Nozzle) : Step n none n.Close.1

/-- A finite trace of steps, accumulating the emitted snapshot labels. -/
inductive Trace : Nozzle → List (Option StateSnapshot) → Nozzle → Prop where
  | nil (n : Nozzle) : Trace n [] n
  | cons {n m n' : Nozzle} {e : Option StateSnapshot} {evs : List (Option StateSnapshot)} :
      Step n e m → Trace m evs n' → Trace n (e :: evs) n'

/-- A nozzle state is reachable if some trace leads to it from a freshly
constructed nozzle. -/
inductive Reachable : Nozzle → Prop where
  | init (options : Options) : Reachable (New options)
  | step {n n' : Nozzle} {e : Option StateSnapshot} :
      Reachable n → Step n e n' → Reachable n'

/-! ### Scenario helpers (sustained failure, then recovery) -/

/-- Record `k` failed outcomes (`k` calls to Go `failure`), then run one tick. -/
def tickAfterFailures (n : Nozzle) (k : Nat) : Nozzle :=
  ((Nozzle.failure)^[k] n).calculate.1

/-- Record `k` successful outcomes, then run one tick. -/
def tickAfterSuccesses (n : Nozzle) (k : Nat) : Nozzle :=
  ((Nozzle.success)^[k] n).calculate.1

/-- The state after `i` ticks, the `j`-th tick preceded by `f j` failed
outcomes (and nothing else). -/
def closeChain (n : Nozzle) (f : Nat → Nat) : Nat → Nozzle
  | 0 => n
  | i + 1 => tickAfterFailures (closeChain n f i) (f i)

/-- The state after `i` ticks, the `j`-th tick preceded by `s j` successful
outcomes (and nothing else; `s j = 0` means no admitted calls at all). -/
def openChain (n : Nozzle) (s : Nat → Nat) : Nat → Nozzle
  | 0 => n
  | i + 1 => tickAfterSuccesses (openChain n s i) (s i)

/-- The options of the sustained-failure scenario: ceiling 10, any interval,
observer optional. -/
def optsOf (iv : Int) (ob : Bool) : Options :=
  { Interval := iv, AllowedFailurePercent := 10, hasOnStateChange := ob }

/-- A fresh nozzle for the scenario: flowRate 100, changeBy 0, ceiling 10. -/
def scenarioStart (iv : Int) (ob : Bool) : Nozzle := New (optsOf iv ob)

/-- A nozzle state between ticks: given options, a flow rate, a step value and
a direction, with all per-interval counters zero and the nozzle not shut
down. -/
def midState (opts : Options) (fr dec : Int) (st : State) : Nozzle :=
  { Options := opts, decreaseBy := dec, flowRate := fr, successes := 0, failures := 0,
    allowed := 0, blocked := 0, state := st, closed := false }

/-- `k` successive calls to Go `Close` (the state after each call). -/
def CloseRepeatedly (k : Nat) (n : Nozzle) : Nozzle :=
  (fun m => (Nozzle.Close m).1)^[k] n

/-- A nozzle state carrying given outcome counters (used to quantify the rate
functions over all counter values; the remaining fields are those of a fresh
nozzle with ceiling 50). -/
def counterState (f s : Nat) : Nozzle :=
  { New { Interval := 1, AllowedFailurePercent := 50, hasOnStateChange := false } with
    failures := f, successes := s }

/-- The admission counterexample state: flow rate 58, 29 calls allowed and 21
blocked so far in the interval, not shut down. -/
def cexState : Nozzle :=
  { New { Interval := 1, AllowedFailurePercent := 50, hasOnStateChange := false } with
    flowRate := 58, allowed := 29, blocked := 21 }

/-- The boundary counterexample state: flow rate 0, `decreaseBy` at `-8`
(the value reached when `close()` drives the flow rate from 5 to 0), not
shut down. -/
def zeroState : Nozzle :=
  { New { Interval := 1, AllowedFailurePercent := 10, hasOnStateChange := false } with
    flowRate := 0, decreaseBy := -8 }

/-! ### Helper lemmas -/

theorem iterate_failure (n : Nozzle) (k : Nat) :
    (Nozzle.failure)^[k] n = { n with failures := n.failures + k } := by
  induction k with
  | zero => simp
  | succ k ih =>
    rw [Function.iterate_succ_apply', ih, Nozzle.failure]
    simp [Nat.add_assoc]

theorem iterate_success (n : Nozzle) (k : Nat) :
    (Nozzle.success)^[k] n = { n with successes := n.successes + k } := by
  induction k with
  | zero => simp
  | succ k ih =>
    rw [Function.iterate_succ_apply', ih, Nozzle.success]
    simp [Nat.add_assoc]

theorem floatOfRat_self (k : Nat) (hk : k ≠ 0) : floatOfRat k k = (2 ^ 52, 0) := by
  have he : ratLog2 k k = 0 := by simp [ratLog2]
  have hpos : 0 < k := Nat.pos_of_ne_zero hk
  simp only [floatOfRat, hk, if_false, he]
  have h1 : ((52 : Int) - 0).toNat = 52 := by decide
  have h2 : (-((52 : Int) - 0)).toNat = 0 := by decide
  rw [h1, h2]
  have ht : k * 2 ^ 52 / (k * 2 ^ 0) = 2 ^ 52 := by
    rw [pow_zero, Nat.mul_one, Nat.mul_div_cancel_left _ hpos]
  have hr : k * 2 ^ 52 % (k * 2 ^ 0) = 0 := by
    rw [pow_zero, Nat.mul_one, Nat.mul_mod_right]
  rw [roundNearestEven, ht, hr]
  simp [hpos, Nat.mul_one]

theorem floatPercent100_self (k : Nat) (hk : 0 < k) : floatPercent100 k k = 100 := by
  rw [floatPercent100, floatOfRat_self k (Nat.pos_iff_ne_zero.mp hk)]
  decide

theorem floatPercent100_zero (s : Nat) : floatPercent100 0 s = 0 := by
  rw [floatPercent100, floatOfRat]
  simp
  decide

theorem tickAfterFailures_eq (n : Nozzle) (k : Nat) (hk : 0 < k)
    (hf : n.failures = 0) (hs : n.successes = 0)
    (hc : n.Options.AllowedFailurePercent < 100) :
    tickAfterFailures n k = Nozzle.reset { n.close with state := State.Closing } := by
  rw [tickAfterFailures, iterate_failure, hf]
  have hfr : ({ n with failures := 0 + k } : Nozzle).failureRate = 100 := by
    rw [Nozzle.failureRate]
    simp only [Nat.zero_add]
    rw [if_neg (by simp [Nat.pos_iff_ne_zero.mp hk])]
    rw [hs, Nat.add_zero]
    exact_mod_cast congrArg (Nat.cast : Nat → Int) (floatPercent100_self k hk)
  simp only [Nozzle.calculate, hfr]
  rw [if_pos (by simpa using hc)]
  simp [Nozzle.close, Nozzle.reset]

theorem tickAfterSuccesses_eq (n : Nozzle) (k : Nat)
    (hf : n.failures = 0) (hc : 0 ≤ n.Options.AllowedFailurePercent) :
    tickAfterSuccesses n k = Nozzle.reset { n.doOpen with state := State.Opening } := by
  rw [tickAfterSuccesses, iterate_success]
  have hfr : ({ n with successes := n.successes + k } : Nozzle).failureRate = 0 := by
    rw [Nozzle.failureRate]
    simp only [hf]
    simp [floatPercent100_zero]
  simp only [Nozzle.calculate, hfr]
  rw [if_neg (by simpa using hc)]
  have hopen : ({ n with successes := n.successes + k } : Nozzle).doOpen =
      { n.doOpen with successes := n.successes + k } := by
    rw [Nozzle.doOpen, Nozzle.doOpen]
    by_cases h : n.flowRate = 100 <;> simp [h]
  rw [hopen]
  simp [Nozzle.reset]

/-! ### C2 — trajectory under sustained failure then recovery -/

/-- C2: starting from a fresh nozzle (flowRate 100, changeBy 0, ceiling 10),
seven ticks each preceded by only failed outcomes produce the flow-rate
sequence 99, 97, 93, 85, 69, 37, 0 with state Closing after each tick; the
next seven ticks with no failures (no admitted calls, or only successes)
produce 1, 3, 7, 15, 31, 63, 100 with state Opening after each, the first
recovery tick incrementing the flow rate by exactly 1. -/
theorem trajectory_failure_then_recovery (iv : Int) (ob : Bool) (f s : Nat → Nat)
    (hf : ∀ i, i < 7 → 0 < f i) :
    ((closeChain (scenarioStart iv ob) f 1).flowRate = 99 ∧
      (closeChain (scenarioStart iv ob) f 1).state = State.Closing) ∧
    ((closeChain (scenarioStart iv ob) f 2).flowRate = 97 ∧
      (closeChain (scenarioStart iv ob) f 2).state = State.Closing) ∧
    ((closeChain (scenarioStart iv ob) f 3).flowRate = 93 ∧
      (closeChain (scenarioStart iv ob) f 3).state = State.Closing) ∧
    ((closeChain (scenarioStart iv ob) f 4).flowRate = 85 ∧
      (closeChain (scenarioStart iv ob) f 4).state = State.Closing) ∧
    ((closeChain (scenarioStart iv ob) f 5).flowRate = 69 ∧
      (closeChain (scenarioStart iv ob) f 5).state = State.Closing) ∧
    ((closeChain (scenarioStart iv ob) f 6).flowRate = 37 ∧
      (closeChain (scenarioStart iv ob) f 6).state = State.Closing) ∧
    ((closeChain (scenarioStart iv ob) f 7).flowRate = 0 ∧
      (closeChain (scenarioStart iv ob) f 7).state = State.Closing) ∧
    ((openChain (closeChain (scenarioStart iv ob) f 7) s 1).flowRate = 1 ∧
      (openChain (closeChain (scenarioStart iv ob) f 7) s 1).state = State.Opening) ∧
    ((openChain (closeChain (scenarioStart iv ob) f 7) s 2).flowRate = 3 ∧
      (openChain (closeChain (scenarioStart iv ob) f 7) s 2).state = State.Opening) ∧
    ((openChain (closeChain (scenarioStart iv ob) f 7) s 3).flowRate = 7 ∧
      (openChain (closeChain (scenarioStart iv ob) f 7) s 3).state = State.Opening) ∧
    ((openChain (closeChain (scenarioStart iv ob) f 7) s 4).flowRate = 15 ∧
      (openChain (closeChain (scenarioStart iv ob) f 7) s 4).state = State.Opening) ∧
    ((openChain (closeChain (scenarioStart iv ob) f 7) s 5).flowRate = 31 ∧
      (openChain (closeChain (scenarioStart iv ob) f 7) s 5).state = State.Opening) ∧
    ((openChain (closeChain (scenarioStart iv ob) f 7) s 6).flowRate = 63 ∧
      (openChain (closeChain (scenarioStart iv ob) f 7) s 6).state = State.Opening) ∧
    ((openChain (closeChain (scenarioStart iv ob) f 7) s 7).flowRate = 100 ∧
      (openChain (closeChain (scenarioStart iv ob) f 7) s 7).state = State.Opening) ∧
    (openChain (closeChain (scenarioStart iv ob) f 7) s 1).flowRate =
      (closeChain (scenarioStart iv ob) f 7).flowRate + 1 := by
  have h1 : closeChain (scenarioStart iv ob) f 1 = midState (optsOf iv ob) 99 (-2) State.Closing := by
    have e : closeChain (scenarioStart iv ob) f 1 = tickAfterFailures (scenarioStart iv ob) (f 0) := rfl
    rw [e, tickAfterFailures_eq _ _ (hf 0 (by norm_num)) rfl rfl (by norm_num [scenarioStart, optsOf, New])]
    rfl
  have h2 : closeChain (scenarioStart iv ob) f 2 = midState (optsOf iv ob) 97 (-4) State.Closing := by
    have e : closeChain (scenarioStart iv ob) f 2 = tickAfterFailures (closeChain (scenarioStart iv ob) f 1) (f 1) := rfl
    rw [e, h1, tickAfterFailures_eq _ _ (hf 1 (by norm_num)) rfl rfl (by norm_num [midState, optsOf])]
    rfl
  have h3 : closeChain (scenarioStart iv ob) f 3 = midState (optsOf iv ob) 93 (-8) State.Closing := by
    have e : closeChain (scenarioStart iv ob) f 3 = tickAfterFailures (closeChain (scenarioStart iv ob) f 2) (f 2) := rfl
    rw [e, h2, tickAfterFailures_eq _ _ (hf 2 (by norm_num)) rfl rfl (by norm_num [midState, optsOf])]
    rfl
  have h4 : closeChain (scenarioStart iv ob) f 4 = midState (optsOf iv ob) 85 (-16) State.Closing := by
    have e : closeChain (scenarioStart iv ob) f 4 = tickAfterFailures (closeChain (scenarioStart iv ob) f 3) (f 3) := rfl
    rw [e, h3, tickAfterFailures_eq _ _ (hf 3 (by norm_num)) rfl rfl (by norm_num [midState, optsOf])]
    rfl
  have h5 : closeChain (scenarioStart iv ob) f 5 = midState (optsOf iv ob) 69 (-32) State.Closing := by
    have e : closeChain (scenarioStart iv ob) f 5 = tickAfterFailures (closeChain (scenarioStart iv ob) f 4) (f 4) := rfl
    rw [e, h4, tickAfterFailures_eq _ _ (hf 4 (by norm_num)) rfl rfl (by norm_num [midState, optsOf])]
    rfl
  have h6 : closeChain (scenarioStart iv ob) f 6 = midState (optsOf iv ob) 37 (-64) State.Closing := by
    have e : closeChain (scenarioStart iv ob) f 6 = tickAfterFailures (closeChain (scenarioStart iv ob) f 5) (f 5) := rfl
    rw [e, h5, tickAfterFailures_eq _ _ (hf 5 (by norm_num)) rfl rfl (by norm_num [midState, optsOf])]
    rfl
  have h7 : closeChain (scenarioStart iv ob) f 7 = midState (optsOf iv ob) 0 (-128) State.Closing := by
    have e : closeChain (scenarioStart iv ob) f 7 = tickAfterFailures (closeChain (scenarioStart iv ob) f 6) (f 6) := rfl
    rw [e, h6, tickAfterFailures_eq _ _ (hf 6 (by norm_num)) rfl rfl (by norm_num [midState, optsOf])]
    rfl
  have g1 : openChain (closeChain (scenarioStart iv ob) f 7) s 1 = midState (optsOf iv ob) 1 2 State.Opening := by
    have e : openChain (closeChain (scenarioStart iv ob) f 7) s 1 = tickAfterSuccesses (closeChain (scenarioStart iv ob) f 7) (s 0) := rfl
    rw [e, h7, tickAfterSuccesses_eq _ _ rfl (by norm_num [midState, optsOf])]
    rfl
  have g2 : openChain (closeChain (scenarioStart iv ob) f 7) s 2 = midState (optsOf iv ob) 3 4 State.Opening := by
    have e : openChain (closeChain (scenarioStart iv ob) f 7) s 2 = tickAfterSuccesses (openChain (closeChain (scenarioStart iv ob) f 7) s 1) (s 1) := rfl
    rw [e, g1, tickAfterSuccesses_eq _ _ rfl (by norm_num [midState, optsOf])]
    rfl
  have g3 : openChain (closeChain (scenarioStart iv ob) f 7) s 3 = midState (optsOf iv ob) 7 8 State.Opening := by
    have e : openChain (closeChain (scenarioStart iv ob) f 7) s 3 = tickAfterSuccesses (openChain (closeChain (scenarioStart iv ob) f 7) s 2) (s 2) := rfl
    rw [e, g2, tickAfterSuccesses_eq _ _ rfl (by norm_num [midState, optsOf])]
    rfl
  have g4 : openChain (closeChain (scenarioStart iv ob) f 7) s 4 = midState (optsOf iv ob) 15 16 State.Opening := by
    have e : openChain (closeChain (scenarioStart iv ob) f 7) s 4 = tickAfterSuccesses (openChain (closeChain (scenarioStart iv ob) f 7) s 3) (s 3) := rfl
    rw [e, g3, tickAfterSuccesses_eq _ _ rfl (by norm_num [midState, optsOf])]
    rfl
  have g5 : openChain (closeChain (scenarioStart iv ob) f 7) s 5 = midState (optsOf iv ob) 31 32 State.Opening := by
    have e : openChain (closeChain (scenarioStart iv ob) f 7) s 5 = tickAfterSuccesses (openChain (closeChain (scenarioStart iv ob) f 7) s 4) (s 4) := rfl
    rw [e, g4, tickAfterSuccesses_eq _ _ rfl (by norm_num [midState, optsOf])]
    rfl
  have g6 : openChain (closeChain (scenarioStart iv ob) f 7) s 6 = midState (optsOf iv ob) 63 64 State.Opening := by
    have e : openChain (closeChain (scenarioStart iv ob) f 7) s 6 = tickAfterSuccesses (openChain (closeChain (scenarioStart iv ob) f 7) s 5) (s 5) := rfl
    rw [e, g5, tickAfterSuccesses_eq _ _ rfl (by norm_num [midState, optsOf])]
    rfl
  have g7 : openChain (closeChain (scenarioStart iv ob) f 7) s 7 = midState (optsOf iv ob) 100 128 State.Opening := by
    have e : openChain (closeChain (scenarioStart iv ob) f 7) s 7 = tickAfterSuccesses (openChain (closeChain (scenarioStart iv ob) f 7) s 6) (s 6) := rfl
    rw [e, g6, tickAfterSuccesses_eq _ _ rfl (by norm_num [midState, optsOf])]
    rfl
  refine ⟨⟨?_, ?_⟩, ⟨?_, ?_⟩, ⟨?_, ?_⟩, ⟨?_, ?_⟩, ⟨?_, ?_⟩, ⟨?_, ?_⟩, ⟨?_, ?_⟩,
    ⟨?_, ?_⟩, ⟨?_, ?_⟩, ⟨?_, ?_⟩, ⟨?_, ?_⟩, ⟨?_, ?_⟩, ⟨?_, ?_⟩, ⟨?_, ?_⟩, ?_⟩ <;>
    first
      | (rw [h1]; rfl) | (rw [h2]; rfl) | (rw [h3]; rfl) | (rw [h4]; rfl)
      | (rw [h5]; rfl) | (rw [h6]; rfl) | (rw [h7]; rfl)
      | (rw [g1]; rfl) | (rw [g2]; rfl) | (rw [g3]; rfl) | (rw [g4]; rfl)
      | (rw [g5]; rfl) | (rw [g6]; rfl) | (rw [g7]; rfl) | (rw [g1, h7]; rfl)

/-- Witness for C2 at a concrete input: one failure before each closing tick,
no calls at all before each recovery tick, interval 1, no observer. -/
theorem trajectory_failure_then_recovery_witness :
    (closeChain (scenarioStart 1 false) (fun _ => 1) 7).flowRate = 0 ∧
    (openChain (closeChain (scenarioStart 1 false) (fun _ => 1) 7) (fun _ => 0) 7).flowRate = 100 := by
  have h := trajectory_failure_then_recovery 1 false (fun _ => 1) (fun _ => 0)
    (fun i _ => Nat.one_pos)
  exact ⟨h.2.2.2.2.2.2.1.1, h.2.2.2.2.2.2.2.2.2.2.2.2.2.1.1⟩

/-- C10: for every nozzle state with flowRate 0, the public accessors
`SuccessRate` and `FailureRate` both return 0, regardless of the recorded
successes and failures counters. -/
theorem rates_zero_at_zero_flow (n : Nozzle) (h : n.flowRate = 0) :
    n.SuccessRate = 0 ∧ n.FailureRate = 0 := by
  rw [Nozzle.SuccessRate, Nozzle.FailureRate]
  simp [h]

/-- Witness for C10: a state at flow rate 0 with no recorded outcomes — in
particular `SuccessRate` is 0, not 100. -/
theorem rates_zero_at_zero_flow_witness :
    zeroState.flowRate = 0 ∧ zeroState.SuccessRate = 0 ∧ zeroState.FailureRate = 0 :=
  ⟨rfl, (rates_zero_at_zero_flow zeroState rfl).1, (rates_zero_at_zero_flow zeroState rfl).2⟩

/-- C6 counterexample: at failures = 29, successes = 21 the code's failure
rate is 57, while the claimed exact-integer floor is 58. -/
theorem failureRate_not_exact_floor :
    (counterState 29 21).failureRate = 57 ∧ ((100 * 29) / (29 + 21) : Nat) = 58 := by
  decide

set_option maxRecDepth 10000 in
set_option maxHeartbeats 12000000 in
/-- C6 (amended): for all counters with `0 < failures + successes ≤ 49` the
failure rate equals `floor(failures * 100 / (failures + successes))`; in
general it equals the IEEE binary64 evaluation of
`(failures / (failures + successes)) * 100` truncated, which can differ from
the exact floor; with no outcomes it is 0. -/
theorem failureRate_formula :
    (∀ f : Nat, f < 50 → ∀ s : Nat, s < 50 → 0 < f + s → f + s ≤ 49 →
        (counterState f s).failureRate = ((100 * f) / (f + s) : Nat)) ∧
    (counterState 0 0).failureRate = 0 ∧
    (∀ f s : Nat, 0 < f + s →
        (counterState f s).failureRate = (floatPercent100 f (f + s) : Int)) := by
  refine ⟨by decide, rfl, ?_⟩
  intro f s h
  rw [Nozzle.failureRate]
  rcases Nat.eq_zero_or_pos f with hf | hf
  · subst hf
    simp at h
    simp [counterState, floatPercent100_zero, Nat.pos_iff_ne_zero.mp h]
  · rw [if_neg]
    · rfl
    · rintro ⟨h1, -⟩
      exact absurd h1 (Nat.pos_iff_ne_zero.mp (by simpa [counterState] using hf))

/-- Witness for C6 at a concrete input inside the verified range. -/
theorem failureRate_formula_witness :
    (counterState 29 20).failureRate = ((100 * 29) / (29 + 20) : Nat) :=
  failureRate_formula.1 29 (by decide) 20 (by decide) (by decide) (by decide)

/-- C1 counterexample: in the state with flowRate 58, allowed 29, blocked 21,
the claim's exact-floor rule denies (ratio 58 is not below 58), but the code
admits (its binary64 ratio is 57): the callback is invoked and `allowed`
becomes 30. -/
theorem admission_claim_counterexample :
    admitDecisionClaim cexState = Decision.denyThrottled ∧
    (cexState.DoBool true).2.2 = true ∧
    (cexState.DoBool true).1.allowed = 30 ∧
    (cexState.DoBool true).1.blocked = 21 := by
  decide

/-- C1 (amended): the admission gate of both `DoBool` and `DoError` follows
the decision rule `admitDecision` — deny-closed when closed (leaving the
state untouched), admit at flowRate 100, deny-throttled at flowRate 0, and
otherwise admit iff the binary64 admit ratio is below the flow rate; on
admit `allowed` is incremented and the callback runs, on deny-throttled
`blocked` is incremented and the callback does not run. -/
theorem admission_decision_rule (n : Nozzle) (h0 : 0 ≤ n.flowRate)
    (ok err : Bool) :
    ((n.DoBool ok).2.2 = decide (admitDecision n = Decision.admitted)) ∧
    ((n.DoError err).2.2 = decide (admitDecision n = Decision.admitted)) ∧
    ((n.DoBool ok).1.allowed = if admitDecision n = Decision.admitted then n.allowed + 1 else n.allowed) ∧
    ((n.DoBool ok).1.blocked = if admitDecision n = Decision.denyThrottled then n.blocked + 1 else n.blocked) ∧
    ((n.DoError err).1.allowed = if admitDecision n = Decision.admitted then n.allowed + 1 else n.allowed) ∧
    ((n.DoError err).1.blocked = if admitDecision n = Decision.denyThrottled then n.blocked + 1 else n.blocked) ∧
    ((n.DoBool ok).2.1 = (decide (admitDecision n = Decision.admitted) && ok)) ∧
    ((n.DoError err).2.1 = (match admitDecision n with
      | Decision.denyClosed => some GoErr.errClosed
      | Decision.denyThrottled => some GoErr.errBlocked
      | Decision.admitted => if err then some GoErr.callerError else none)) ∧
    (admitDecision n = Decision.denyClosed → (n.DoBool ok).1 = n ∧ (n.DoError err).1 = n) := by
  by_cases hc : n.closed
  · simp [Nozzle.DoBool, Nozzle.DoError, admitDecision, hc]
  · have hrate : (if n.allowed ≠ 0 then (floatPercent100 n.allowed (n.allowed + n.blocked) : Int) else 0)
        = admitRatio n.allowed n.blocked := by
      rw [admitRatio]
      by_cases ha : n.allowed = 0 <;> simp [ha, Nat.pos_iff_ne_zero]
    by_cases hf100 : n.flowRate = 100
    · simp only [Nozzle.DoBool, Nozzle.DoError, admitDecision, hc, hf100]
      cases ok <;> cases err <;>
        simp [Nozzle.success, Nozzle.failure]
    · by_cases hf0 : n.flowRate = 0
      · simp [Nozzle.DoBool, Nozzle.DoError, admitDecision, hc, hf100, hf0]
      · have hpos : 0 < n.flowRate := lt_of_le_of_ne h0 (Ne.symm hf0)
        by_cases hlt : admitRatio n.allowed n.blocked < n.flowRate
        · simp only [Nozzle.DoBool, Nozzle.DoError, admitDecision, hc, hf100, hf0, hpos, hrate,
            if_true, if_false, hlt]
          cases ok <;> cases err <;>
            simp [Nozzle.success, Nozzle.failure, hf100, hf0, hpos, hlt, hrate]
        · simp [Nozzle.DoBool, Nozzle.DoError, admitDecision, hc, hf100, hf0, hpos, hlt, hrate]

/-- Witness for C1: the amended rule applied at the counterexample state. -/
theorem admission_decision_rule_witness :
    (cexState.DoBool true).2.2 = decide (admitDecision cexState = Decision.admitted) :=
  (admission_decision_rule cexState (by decide) true true).1

theorem clamp_bounds (i : Int) : 0 ≤ clamp i ∧ clamp i ≤ 100 := by
  rw [clamp]; split_ifs <;> omega

theorem DoBool_frame (n : Nozzle) (ok : Bool) :
    (n.DoBool ok).1.flowRate = n.flowRate ∧ (n.DoBool ok).1.decreaseBy = n.decreaseBy ∧
      (n.DoBool ok).1.Options = n.Options := by
  rw [Nozzle.DoBool]
  split_ifs <;> cases ok <;> simp [Nozzle.success, Nozzle.failure, apply_ite]

theorem DoError_frame (n : Nozzle) (err : Bool) :
    (n.DoError err).1.flowRate = n.flowRate ∧ (n.DoError err).1.decreaseBy = n.decreaseBy ∧
      (n.DoError err).1.Options = n.Options := by
  rw [Nozzle.DoError]
  split_ifs <;> cases err <;> simp [Nozzle.success, Nozzle.failure, apply_ite]

theorem calculate_flowRate_bounds (n : Nozzle) :
    0 ≤ n.calculate.1.flowRate ∧ n.calculate.1.flowRate ≤ 100 := by
  rw [Nozzle.calculate]
  by_cases h : n.Options.AllowedFailurePercent < n.failureRate
  · simpa [h, Nozzle.reset, Nozzle.close] using clamp_bounds (n.flowRate + if -1 < n.decreaseBy then -1 else n.decreaseBy)
  · simp only [h, if_false]
    rw [Nozzle.doOpen]
    by_cases h2 : n.flowRate = 100
    · simp [Nozzle.reset, h2]
    · simpa [Nozzle.reset, h2] using clamp_bounds (n.flowRate + if n.decreaseBy < 1 then 1 else n.decreaseBy)

/-- C3: every reachable nozzle state has a flow rate in `[0, 100]`. -/
theorem flowRate_bounds_invariant (n : Nozzle) (h : Reachable n) :
    0 ≤ n.flowRate ∧ n.flowRate ≤ 100 := by
  induction h with
  | init options => exact ⟨by norm_num [New], by norm_num [New]⟩
  | step hr hs ih =>
    cases hs with
    | doBool ok => rw [(DoBool_frame _ ok).1]; exact ih
    | doError err => rw [(DoError_frame _ err).1]; exact ih
    | tick hm => exact calculate_flowRate_bounds _
    | closeStep => exact ih

/-- Witness for C3: the invariant at a freshly constructed nozzle. -/
theorem flowRate_bounds_invariant_witness :
    0 ≤ (New (optsOf 1 false)).flowRate ∧ (New (optsOf 1 false)).flowRate ≤ 100 :=
  flowRate_bounds_invariant _ (Reachable.init (optsOf 1 false))

theorem safeMultiply_double (a : Int) (h1 : -maxDecreaseBy ≤ a) (h2 : a ≤ maxDecreaseBy)
    (h3 : a ≠ 0) : safeMultiply a 2 = 2 * a := by
  have e1 : Int.tdiv maxInt64 2 = 4611686018427387903 := by decide
  have e2 : Int.tdiv minInt64 2 = -4611686018427387904 := by decide
  rw [safeMultiply, e2]
  rw [maxDecreaseBy] at h1 h2
  split_ifs with hz hp hn hm1 hm2
  · rcases hz with hz | hz
    · exact absurd hz h3
    · exact absurd hz (by norm_num)
  · rw [e1] at hp
    omega
  · rcases hn with ⟨-, hb, -⟩
    exact absurd hb (by norm_num)
  · rcases hm1 with ⟨-, hb, -⟩
    exact absurd hb (by norm_num)
  · omega
  · omega

theorem close_decreaseBy_bounds (n : Nozzle)
    (hlb : -maxDecreaseBy ≤ n.decreaseBy) (hub : n.decreaseBy ≤ maxDecreaseBy) :
    -maxDecreaseBy ≤ n.close.decreaseBy ∧ n.close.decreaseBy ≤ maxDecreaseBy := by
  have hde : n.close.decreaseBy =
      if safeMultiply (if -1 < n.decreaseBy then -1 else n.decreaseBy) 2 < -maxDecreaseBy
      then -maxDecreaseBy
      else safeMultiply (if -1 < n.decreaseBy then -1 else n.decreaseBy) 2 := rfl
  have hmb : -maxDecreaseBy ≤ (if -1 < n.decreaseBy then -1 else n.decreaseBy) ∧
      (if -1 < n.decreaseBy then -1 else n.decreaseBy) ≤ -1 := by
    rw [maxDecreaseBy] at *
    split_ifs <;> constructor <;> omega
  have hs := safeMultiply_double _ hmb.1
    (le_trans hmb.2 (by rw [maxDecreaseBy]; omega)) (by have := hmb.2; omega)
  rw [hde, hs]
  have hm2 := hmb.2
  rw [maxDecreaseBy] at *
  split_ifs <;> constructor <;> omega

theorem doOpen_decreaseBy_bounds (n : Nozzle)
    (hlb : -maxDecreaseBy ≤ n.decreaseBy) (hub : n.decreaseBy ≤ maxDecreaseBy) :
    -maxDecreaseBy ≤ n.doOpen.decreaseBy ∧ n.doOpen.decreaseBy ≤ maxDecreaseBy := by
  by_cases h100 : n.flowRate = 100
  · have hid : n.doOpen = n := by rw [Nozzle.doOpen, if_pos h100]
    rw [hid]
    exact ⟨hlb, hub⟩
  · have hde : n.doOpen.decreaseBy =
        if maxDecreaseBy < safeMultiply (if n.decreaseBy < 1 then 1 else n.decreaseBy) 2
        then maxDecreaseBy
        else safeMultiply (if n.decreaseBy < 1 then 1 else n.decreaseBy) 2 := by
      rw [Nozzle.doOpen, if_neg h100]
    have hmb : 1 ≤ (if n.decreaseBy < 1 then 1 else n.decreaseBy) ∧
        (if n.decreaseBy < 1 then 1 else n.decreaseBy) ≤ maxDecreaseBy := by
      rw [maxDecreaseBy] at *
      split_ifs <;> constructor <;> omega
    have hs := safeMultiply_double _
      (le_trans (by rw [maxDecreaseBy]; omega) hmb.1) hmb.2 (by have := hmb.1; omega)
    rw [hde, hs]
    have hm1 := hmb.1
    rw [maxDecreaseBy] at *
    split_ifs <;> constructor <;> omega

theorem calculate_fst (n : Nozzle) :
    n.calculate.1 = Nozzle.reset (if n.Options.AllowedFailurePercent < n.failureRate
      then { n.close with state := State.Closing }
      else { n.doOpen with state := State.Opening }) := rfl

theorem calculate_decreaseBy_bounds (n : Nozzle)
    (hlb : -maxDecreaseBy ≤ n.decreaseBy) (hub : n.decreaseBy ≤ maxDecreaseBy) :
    -maxDecreaseBy ≤ n.calculate.1.decreaseBy ∧ n.calculate.1.decreaseBy ≤ maxDecreaseBy := by
  rw [calculate_fst]
  by_cases h : n.Options.AllowedFailurePercent < n.failureRate
  · rw [if_pos h]
    exact close_decreaseBy_bounds n hlb hub
  · rw [if_neg h]
    exact doOpen_decreaseBy_bounds n hlb hub

/-- C7: every reachable nozzle state has `|decreaseBy| ≤ maxDecreaseBy`
(the fixed constant 1000000000), in particular after any number of
consecutive closing or opening doublings. -/
theorem decreaseBy_cap_invariant (n : Nozzle) (h : Reachable n) :
    |n.decreaseBy| ≤ maxDecreaseBy := by
  rw [abs_le]
  induction h with
  | init options =>
    constructor <;> simp [New, maxDecreaseBy]
  | step hr hs ih =>
    cases hs with
    | doBool ok =>
      rw [(DoBool_frame _ ok).2.1]; exact ih
    | doError err =>
      rw [(DoError_frame _ err).2.1]; exact ih
    | tick hm => exact calculate_decreaseBy_bounds _ ih.1 ih.2
    | closeStep => exact ih

/-- Witness for C7: the invariant at a freshly constructed nozzle. -/
theorem decreaseBy_cap_invariant_witness :
    |(New (optsOf 1 false)).decreaseBy| ≤ maxDecreaseBy :=
  decreaseBy_cap_invariant _ (Reachable.init (optsOf 1 false))

/-- C4 evaluation at the failing input: at flowRate 0 with decreaseBy -8 (the
value reached when closing drives the flow rate from 5 to 0), `close()`
keeps the flow rate at 0 but doubles `decreaseBy` to -16, contradicting the
boundary-symmetry claim and the repository's own boundary tests
(`TestNozzleBoundaryBehavior`, `TestNozzleNoOverflowAtBoundaries`), which
require `decreaseBy` to stop changing once the flow rate reaches 0. -/
theorem close_at_zero_changes_decreaseBy :
    zeroState.flowRate = 0 ∧ zeroState.decreaseBy = -8 ∧
    zeroState.close.flowRate = 0 ∧ zeroState.close.decreaseBy = -16 := by
  decide

theorem step_from_closed (n : Nozzle) (e : Option StateSnapshot) (n' : Nozzle)
    (hc : n.closed = true) (hs : Step n e n') : e = none ∧ n'.closed = true := by
  cases hs with
  | doBool ok => exact ⟨rfl, by rw [Nozzle.DoBool, if_pos hc]; exact hc⟩
  | doError err => exact ⟨rfl, by rw [Nozzle.DoError, if_pos hc]; exact hc⟩
  | tick hm => rw [hc] at hm; exact absurd hm (by simp)
  | closeStep => exact ⟨rfl, rfl⟩

theorem trace_from_closed (n : Nozzle) (evs : List (Option StateSnapshot)) (n' : Nozzle)
    (ht : Trace n evs n') : n.closed = true → n'.closed = true ∧ ∀ e ∈ evs, e = none := by
  induction ht with
  | nil m => exact fun hc => ⟨hc, by simp⟩
  | cons hstep htrace ih =>
    intro hc
    obtain ⟨he, hm⟩ := step_from_closed _ _ _ hc hstep
    obtain ⟨hn2, hall⟩ := ih hm
    refine ⟨hn2, ?_⟩
    intro x hx
    rcases List.mem_cons.mp hx with h | h
    · rw [h, he]
    · exact hall x h

/-- C5: `Close` is idempotent — any number of repeated calls leaves the same
state as one call, and every call returns success (`nil`) — and once a
nozzle is closed, `DoBool` returns false and `DoError` returns `ErrClosed`
without invoking the callback or touching any state, and no trace from a
closed state ever delivers a snapshot to the observer (the nozzle also
stays closed forever). -/
theorem shutdown_contract :
    (∀ n : Nozzle, ∀ k : Nat, CloseRepeatedly (k + 1) n = n.Close.1) ∧
    (∀ n : Nozzle, n.Close.2 = none) ∧
    (∀ n : Nozzle, n.closed = true → ∀ ok err : Bool,
        n.DoBool ok = (n, false, false) ∧ n.DoError err = (n, some GoErr.errClosed, false)) ∧
    (∀ n n' : Nozzle, ∀ evs : List (Option StateSnapshot), n.closed = true → Trace n evs n' →
        n'.closed = true ∧ ∀ e ∈ evs, e = none) := by
  refine ⟨?_, fun n => rfl, ?_, ?_⟩
  · intro n k
    induction k with
    | zero => rfl
    | succ k ih =>
      rw [CloseRepeatedly, Function.iterate_succ_apply']
      rw [CloseRepeatedly] at ih
      rw [ih]
      rfl
  · intro n hc ok err
    constructor
    · rw [Nozzle.DoBool, if_pos hc]
    · rw [Nozzle.DoError, if_pos hc]
  · exact fun n n' evs hc ht => trace_from_closed n evs n' ht hc

/-- Witness for C5: five repeated closes of a fresh nozzle equal one close,
and admission on the closed nozzle returns the deny-closed results without
invoking the callback. -/
theorem shutdown_contract_witness :
    CloseRepeatedly 5 (New (optsOf 1 false)) = (New (optsOf 1 false)).Close.1 ∧
    ((New (optsOf 1 false)).Close.1).DoBool true =
      ((New (optsOf 1 false)).Close.1, false, false) ∧
    ((New (optsOf 1 false)).Close.1).DoError true =
      ((New (optsOf 1 false)).Close.1, some GoErr.errClosed, false) ∧
    ((New (optsOf 1 false)).Close.1).closed = true :=
  ⟨shutdown_contract.1 _ 4, (shutdown_contract.2.2.1 _ rfl true true).1,
    (shutdown_contract.2.2.1 _ rfl true true).2,
    (shutdown_contract.2.2.2 _ _ [] rfl (Trace.nil _)).1⟩

/-- C8 counterexample (spec-modelled constructor): with interval 0 and
ceiling 101 both invalid, construction fails with InvalidInterval, not
InvalidCeiling, so "fails with InvalidCeiling exactly when ceilingPercent is
outside [0,100]" does not hold as stated. -/
theorem construction_validation_counterexample :
    (100 < (101 : Int)) ∧
    NewValidated { Interval := 0, AllowedFailurePercent := 101, hasOnStateChange := false } =
      Except.error NewError.ErrInvalidInterval ∧
    NewValidated { Interval := 0, AllowedFailurePercent := 101, hasOnStateChange := false } ≠
      Except.error NewError.ErrInvalidFailurePercent := by
  refine ⟨by norm_num, rfl, ?_⟩
  intro h
  rw [show NewValidated { Interval := 0, AllowedFailurePercent := 101, hasOnStateChange := false } =
    Except.error NewError.ErrInvalidInterval from rfl] at h
  injection h with h2
  exact absurd h2 (by decide)

/-- C8 (amended, spec-modelled constructor): construction fails with
InvalidInterval exactly when interval ≤ 0; it fails with InvalidCeiling
(`ErrInvalidFailurePercent`) exactly when the interval is valid and the
ceiling is outside [0,100]; with valid options it returns the fresh nozzle;
a failed construction exposes no instance (the `Except` is an error). -/
theorem construction_validation (opts : Options) :
    (NewValidated opts = Except.error NewError.ErrInvalidInterval ↔ opts.Interval ≤ 0) ∧
    (NewValidated opts = Except.error NewError.ErrInvalidFailurePercent ↔
      (0 < opts.Interval ∧ (opts.AllowedFailurePercent < 0 ∨ 100 < opts.AllowedFailurePercent))) ∧
    (0 < opts.Interval → 0 ≤ opts.AllowedFailurePercent → opts.AllowedFailurePercent ≤ 100 →
      NewValidated opts = Except.ok (New opts)) := by
  rw [NewValidated]
  split_ifs with h1 h2
  · refine ⟨⟨fun _ => h1, fun _ => rfl⟩, ⟨fun h => absurd h (by simp), fun h => absurd h1 (by omega)⟩,
      fun hi _ _ => absurd h1 (by omega)⟩
  · refine ⟨⟨fun h => by simp at h, fun h => absurd h h1⟩,
      ⟨fun _ => ⟨by omega, h2⟩, fun _ => rfl⟩, ?_⟩
    intro _ hlo hhi
    rcases h2 with h | h <;> omega
  · refine ⟨⟨fun h => by simp at h, fun h => absurd h h1⟩,
      ⟨fun h => by simp at h, fun h => absurd h.2 h2⟩, fun _ _ _ => rfl⟩

/-- Witness for C8: valid options construct the fresh nozzle. -/
theorem construction_validation_witness :
    NewValidated (optsOf 1 false) = Except.ok (New (optsOf 1 false)) :=
  (construction_validation (optsOf 1 false)).2.2 (by decide) (by decide) (by decide)

/-- C9 (spec-modelled notifier): when the observer panics during a tick, the
panic is caught and discarded — the tick produces exactly the state the
observer-free `calculate` produces, the per-interval counter reset
completes, and a subsequent tick behaves identically regardless of which
observer ran first. -/
theorem observer_fault_isolation (n : Nozzle) (obs obs2 : StateSnapshot → Except String Unit) :
    n.calculateObs obs = n.calculate.1 ∧
    (n.calculateObs obs).successes = 0 ∧ (n.calculateObs obs).failures = 0 ∧
    (n.calculateObs obs).allowed = 0 ∧ (n.calculateObs obs).blocked = 0 ∧
    (n.calculateObs obs).calculateObs obs2 = n.calculate.1.calculate.1 := by
  have key : ∀ m : Nozzle, ∀ o : StateSnapshot → Except String Unit,
      m.calculateObs o = m.calculate.1 := by
    intro m o
    rw [Nozzle.calculateObs]
    rcases m.calculate.2 with _ | s
    · rfl
    · rfl
  refine ⟨key n obs, ?_, ?_, ?_, ?_, ?_⟩ <;> rw [key]
  · rw [calculate_fst]; rfl
  · rw [calculate_fst]; rfl
  · rw [calculate_fst]; rfl
  · rw [calculate_fst]; rfl
  · rw [key]
